import Mathlib

/-!
Shallow embedding of the test-harness core of the `nightmare` repository
(module `src/nightmare/case.py`), together with theorems settling the
frozen claims about it.

Conventions of the embedding:
* Python strings are Lean `String`s; the Python string methods used by the
  source (`splitlines`, `rstrip`, `strip`, `replace`, `startswith`, the
  `in` substring test, `int(...)` parsing) are re-implemented on the
  underlying character lists so that every definition is executable and
  kernel-reducible.
* External collaborators that are not part of the source under `src/`
  (the subprocess layer, the regular-expression engine, `eval` of textual
  lambda expressions, the file system walked by the bad-word scanner, the
  `logger`/`TermColor` utilities module) are modelled as oracle functions
  carried in explicit environment records; log lines are collected as
  plain strings, colour codes being presentation only.
* Recursion over the nested expectation type and over nested test groups
  is fuelled with an explicit `Nat` so that all definitions are structural
  and evaluate inside the kernel; exhausted fuel is an artefact that the
  theorems either quantify over or exclude by hypothesis.
-/

namespace Nightmare

/-! ## Python string primitives -/

/-- Whitespace characters recognised by Python's `str.strip`/`str.rstrip`
(the ASCII ones: space, tab, newline, carriage return, vertical tab,
form feed). -/
def isPyWs (c : Char) : Bool :=
  c == ' ' || c == '\t' || c == '\n' || c == '\r' || c == '\x0b' || c == '\x0c'

/-- Python `str.rstrip()`: remove trailing whitespace. -/
def pyRstrip (s : String) : String :=
  String.mk ((s.data.reverse.dropWhile isPyWs).reverse)

/-- Python `str.strip()`: remove leading and trailing whitespace. -/
def pyStrip (s : String) : String :=
  String.mk (((s.data.dropWhile isPyWs).reverse.dropWhile isPyWs).reverse)

/-- Helper for `pySplitlines`, walking the character list with the current
(reversed) line as accumulator. -/
def pySplitlinesAux : List Char → List Char → List String
  | [], acc => if acc.isEmpty then [] else [String.mk acc.reverse]
  | '\r' :: '\n' :: rest, acc => String.mk acc.reverse :: pySplitlinesAux rest []
  | '\n' :: rest, acc => String.mk acc.reverse :: pySplitlinesAux rest []
  | '\r' :: rest, acc => String.mk acc.reverse :: pySplitlinesAux rest []
  | c :: rest, acc => pySplitlinesAux rest (c :: acc)

/-- Python `str.splitlines()` for the line separators `\n`, `\r` and
`\r\n`: a trailing separator does not produce a final empty line. -/
def pySplitlines (s : String) : List String :=
  pySplitlinesAux s.data []

/-- Python `str.startswith(pre)`. -/
def pyStartswith (s pre : String) : Bool :=
  pre.data.isPrefixOf s.data

/-- Whether `pat` occurs as a contiguous subsequence of `s`
(Python's `pat in s` on strings). -/
def containsSeq (pat : List Char) : List Char → Bool
  | [] => pat.isEmpty
  | c :: rest => pat.isPrefixOf (c :: rest) || containsSeq pat rest

/-- Python's substring test `sub in s`. -/
def strContains (s sub : String) : Bool :=
  containsSeq sub.data s.data

/-- Fuelled worker for `pyReplaceStr`; the fuel is the length of the
subject string, which suffices because each step consumes at least one
character of it. Exhausted fuel returns the remaining subject unchanged. -/
def pyReplaceAux (pat rep : List Char) : Nat → List Char → List Char
  | 0, s => s
  | _ + 1, [] => []
  | fuel + 1, c :: rest =>
    if pat.isPrefixOf (c :: rest) then
      rep ++ pyReplaceAux pat rep fuel (rest.drop (pat.length - 1))
    else
      c :: pyReplaceAux pat rep fuel rest

/-- Python `s.replace(pat, rep)` for a non-empty literal pattern (the
source only replaces the literal tokens "$n" and "$DUT"; the empty-pattern
behaviour of CPython is never exercised and is modelled as the identity). -/
def pyReplaceStr (s pat rep : String) : String :=
  if pat.data.isEmpty then s
  else String.mk (pyReplaceAux pat.data rep.data s.data.length s.data)

/-- Value of one decimal digit character. -/
def digitVal (c : Char) : Nat := c.toNat - '0'.toNat

/-- Decimal value of a digit string. -/
def digitsToNat (ds : List Char) : Nat :=
  ds.foldl (fun acc c => acc * 10 + digitVal c) 0

/-! ## The TestState enumeration (`src/nightmare/case.py`, class TestState) -/

/-- The state enumeration of the source. Note that besides the nine
states named by the specification it also contains `Clean` and `BadWord`,
used by the bad-word detection mode. -/
inductive TestState where
  | Success
  | Fail
  | Error
  | Assertion
  | SegFault
  | InfoOnly
  | Timeout
  | Waiting
  | Disabled
  | Clean
  | BadWord
deriving DecidableEq, Repr

/-- Numeric values of the enumeration members (`__int__`). -/
def TestState.toInt : TestState → Int
  | .Success => 0
  | .Fail => 1
  | .Error => 2
  | .Assertion => 3
  | .SegFault => 4
  | .InfoOnly => 5
  | .Timeout => 6
  | .Waiting => 7
  | .Disabled => 8
  | .Clean => 10
  | .BadWord => 11

/-- The nine states the specification's data model lists for TestState. -/
def specStates : List TestState :=
  [TestState.Waiting, TestState.Disabled, TestState.InfoOnly, TestState.Success,
   TestState.Fail, TestState.Error, TestState.Assertion, TestState.SegFault,
   TestState.Timeout]

/-- All eleven members of the source enumeration. -/
def allStates : List TestState :=
  specStates ++ [TestState.Clean, TestState.BadWord]

/-- The states `Test.runCmd` can leave a Case in. -/
def postRunStates : List TestState :=
  [TestState.Error, TestState.Timeout, TestState.Success, TestState.Assertion,
   TestState.SegFault, TestState.Fail]

/-! ## Stream outputs -/

/-- `StreamOutput`: the output of a program is a string (stdout/stderr in
text mode), raw bytes (binary mode), an integer (the return code), or
None. -/
inductive PyOut where
  | none
  | str (s : String)
  | int (n : Int)
  | bytes (b : List Nat)

/-- Python `str(out)` on a stream output. The repr of a bytes object is
abstracted (no claim stringifies binary output). -/
def pyStr : PyOut → String
  | PyOut.str s => s
  | PyOut.int n => toString n
  | PyOut.none => "None"
  | PyOut.bytes _ => "bytes"

/-! ## The expectation engine -/

/-- Model of the standard-library generator `difflib.unified_diff(a, b,
fromfile, tofile)` restricted to the observations `Test.lineComparison`
makes of it: the output is empty exactly when the two sequences are equal,
and otherwise it opens with the two file-header lines (starting with `-`
and `+`) followed by a hunk header (starting with `@`) and the changed
lines. The grouping of hunks and the context lines of the real generator
are irrelevant to both the boolean result and the presence of logged
output, and are flattened here into a single hunk. -/
def unified_diff (a b : List String) (fromfile tofile : String) : List String :=
  if a = b then []
  else
    String.mk ('-' :: '-' :: '-' :: ' ' :: fromfile.data)
      :: String.mk ('+' :: '+' :: '+' :: ' ' :: tofile.data)
      :: String.mk ['@', '@']
      :: (a.map (fun l => String.mk ('-' :: l.data))
          ++ b.map (fun l => String.mk ('+' :: l.data)))

/-- Configuration and collaborators a check needs: the fields of the
owning `Test` that `check`/`lineComparison` read, plus the two external
collaborators the source calls from `check` (`eval` of textual lambda
expressions and the `re` regex engine), modelled as oracle functions. -/
structure CheckCfg where
  linesep : String
  diff : Bool
  ignoreEmptyLines : Bool
  evalPy : String → PyOut → Bool
  reMatch : String → String → Bool

/-- `Test.lineComparison(expLines, outLines, stream)`: strip empty lines
from both sides when `ignoreEmptyLines` is set, run the unified diff of
`outLines` against `expLines`, mark the comparison failed when any diff
line starts with `+`, `-` or `@`, and (when the `diff` flag is set) log
every diff line right-stripped. The returned pair is (boolean result,
logged lines); colouring of the logged lines is presentation only and is
dropped. -/
def lineComparison (cfg : CheckCfg) (expLines outLines : List String)
    (stream : String) : Bool × List String :=
  let expL := if cfg.ignoreEmptyLines then expLines.filter (fun l => l != "") else expLines
  let outL := if cfg.ignoreEmptyLines then outLines.filter (fun l => l != "") else outLines
  let dl := unified_diff outL expL stream "expectation"
  (!(dl.any (fun line =>
      pyStartswith line "+" || pyStartswith line "-" || pyStartswith line "@")),
   if cfg.diff then dl.map pyRstrip else [])

/-- The dynamic values `Test.check` can receive as an expectation:
`None`, a `Stringifier` (carrying its expectation text), a callable
predicate (a lambda or an `Expectation` object, abstracted as a Lean
function), an integer, a list (conjunction), a set (disjunction, its
iteration order modelled as a list), a bytes object, or a plain string. -/
inductive PyExp where
  | none
  | stringifier (exp : String)
  | func (f : PyOut → Bool)
  | int (n : Int)
  | list (elems : List PyExp)
  | set (elems : List PyExp)
  | bytes (b : List Nat)
  | str (s : String)

/-- Python's `callable(exp)` on an expectation value: lambdas and
`Expectation` objects are callable, and so are `Stringifier` objects,
because `Stringifier` defines `__call__`. -/
def PyExp.isCallable : PyExp → Bool
  | .func _ => true
  | .stringifier _ => true
  | _ => false

/-- What `exp(out)` would yield, coerced to a truth value, if a callable
expectation were invoked as a predicate: a `func` returns its boolean; a
`Stringifier` returns the pair of line lists, a non-empty tuple, which is
truthy. Other values are not callable (calling them raises). -/
def PyExp.callAsBool : PyExp → PyOut → Bool
  | .func f, out => f out
  | .stringifier _, _ => true
  | _, _ => false

/-- `Stringifier.__call__(output)`: strip and split both the stored
expectation and the output into lines. (In Python a non-string output
would raise `AttributeError` on `.strip()`; the model stringifies it, and
all theorems about Stringifiers are stated for string outputs.) -/
def Stringifier.call (e : String) (out : PyOut) : List String × List String :=
  (pySplitlines (pyStrip e), pySplitlines (pyStrip (pyStr out)))

/-- The loop of `Test.checkList`: check each element in order, returning
`False` as soon as one fails (the remaining elements are not evaluated);
the second component accumulates the log lines of the evaluated prefix. -/
def pyAllCheck (f : PyExp → Bool × List String) : List PyExp → Bool × List String
  | [] => (true, [])
  | e :: rest =>
    let r := f e
    if r.1 then
      let rs := pyAllCheck f rest
      (rs.1, r.2 ++ rs.2)
    else
      (false, r.2)

/-- The loop of `Test.checkSet`: check each element in order, returning
`True` as soon as one matches. -/
def pyAnyCheck (f : PyExp → Bool × List String) : List PyExp → Bool × List String
  | [] => (false, [])
  | e :: rest =>
    let r := f e
    if r.1 then
      (true, r.2)
    else
      let rs := pyAnyCheck f rest
      (rs.1, r.2 ++ rs.2)

/-- `Test.check(exp, out, stream)` with an explicit recursion fuel (the
fuel only needs to exceed the nesting depth of the expectation; exhausted
fuel yields `false`). The match arms are in the exact order of the
`isinstance` cascade of the source: `None`, then `Stringifier`, then
`callable(exp) or isinstance(exp, Expectation)`, then int (which compares
only when the output is an int too, and otherwise falls through the
remaining tests to the final `return False`), then list, set, bytes, and
finally str, whose body handles the `lambda` prefix (dynamic evaluation,
modelled by the `evalPy` oracle), the `regex:` prefix (case-insensitive
match-at-start, modelled by the `reMatch` oracle, after substituting the
platform line separator for `$n`), and plain text compared line by line
against the right-stripped output. Anything that matches no arm would
return `False`; every shape is covered here. The second component is the
list of lines logged through the diff reporter. -/
def checkF (cfg : CheckCfg) : Nat → PyExp → PyOut → String → Bool × List String
  | 0, _, _, _ => (false, [])
  | _ + 1, PyExp.none, _, _ => (true, [])
  | _ + 1, PyExp.stringifier e, out, stream =>
    lineComparison cfg (Stringifier.call e out).1 (Stringifier.call e out).2 stream
  | _ + 1, PyExp.func f, out, _ => (f out, [])
  | _ + 1, PyExp.int n, out, _ =>
    match out with
    | PyOut.int m => (decide (n = m), [])
    | _ => (false, [])
  | fuel + 1, PyExp.list elems, out, _ =>
    pyAllCheck (fun e => checkF cfg fuel e out "returnCode") elems
  | fuel + 1, PyExp.set elems, out, _ =>
    pyAnyCheck (fun e => checkF cfg fuel e out "returnCode") elems
  | _ + 1, PyExp.bytes b, out, _ =>
    match out with
    | PyOut.bytes b2 => (decide (b = b2), [])
    | _ => (false, [])
  | _ + 1, PyExp.str s, out, stream =>
    if pyStartswith s "lambda" then (cfg.evalPy s out, [])
    else if pyStartswith s "regex:" then
      (cfg.reMatch (pyReplaceStr (String.mk (s.data.drop 6)) "$n" cfg.linesep) (pyStr out), [])
    else
      lineComparison cfg
        (pySplitlines (pyReplaceStr s "$n" cfg.linesep))
        (pySplitlines (pyRstrip (pyStr out)))
        stream

/-- `Test.checkList(lst, out)`: all elements must match; nested checks are
invoked with the default stream name "returnCode", as in the source. -/
def checkListF (cfg : CheckCfg) (fuel : Nat) (l : List PyExp) (out : PyOut) :
    Bool × List String :=
  pyAllCheck (fun e => checkF cfg fuel e out "returnCode") l

/-- `Test.checkSet(st, out)`: at least one element must match. -/
def checkSetF (cfg : CheckCfg) (fuel : Nat) (l : List PyExp) (out : PyOut) :
    Bool × List String :=
  pyAnyCheck (fun e => checkF cfg fuel e out "returnCode") l

/-! ## The Case state machine (`class Test`) -/

/-- The shapes `Test.cmd` takes: not configured, a single shell command
line, or a list of command lines. -/
inductive PyCmd where
  | none
  | str (s : String)
  | list (cmds : List String)
deriving DecidableEq, Repr

/-- The fields of a `Test` that the modelled behaviour reads or writes.
The float `timeout` only parameterises the execution oracle (wall-clock
time is not embeddable) and `pipeLimit` only caps console echoing, which
is presentation; both are carried for structural fidelity but unused by
the semantics. -/
structure Test where
  name : String
  descr : Option String
  cmd : PyCmd
  expectStdout : PyExp
  expectStderr : PyExp
  expectRetCode : PyExp
  DUT : Option String
  output : PyOut
  error : String
  retCode : Int
  state : TestState
  pipe : Bool
  outputOnFail : Bool
  diff : Bool
  linesep : String
  ignoreEmptyLines : Bool
  pipeLimit : Nat
  binary : Bool

/-- `Test.__init__`: note that the `state` parameter is accepted but never
stored — the constructor always sets `self.state = TestState.Waiting`.
`linesep` is initialised from `os.linesep`, passed here as `osLinesep`. -/
def Test.init (DUT : Option String) (name description : String) (command : PyCmd)
    (stdout stderr returnCode : PyExp) (outputOnFail pipe diff : Bool)
    (state : TestState) (binary : Bool) (osLinesep : String) : Test :=
  { name := name
    descr := some description
    cmd := command
    expectStdout := stdout
    expectStderr := stderr
    expectRetCode := returnCode
    DUT := DUT
    output := PyOut.str ""
    error := ""
    retCode := 0
    state := TestState.Waiting
    pipe := pipe
    outputOnFail := outputOnFail
    diff := diff
    linesep := osLinesep
    ignoreEmptyLines := false
    pipeLimit := 2000
    binary := binary }

/-- Result of one `Command.execute` call as `Test.runCmd` observes it:
either the timeout elapsed, or the process finished with the captured
stdout, stderr and exit code. -/
inductive CmdOutcome where
  | timeout
  | done (out : PyOut) (err : String) (ret : Int)

/-- The environment a run executes in: the subprocess layer (`exec` maps
a resolved shell command line to its outcome), the `eval` and `re`
oracles used by `check`, the `re.search` oracle of the bad-word scanner,
and the files (name and lines) that `searchpath.glob(self.descr)` yields
for the bad-word scanner. -/
structure RunEnv where
  exec : String → CmdOutcome
  evalPy : String → PyOut → Bool
  reMatch : String → String → Bool
  reSearch : String → String → Bool
  globFiles : List (String × List String)

/-- The `CheckCfg` view of a test's fields. -/
def Test.cfg (t : Test) (env : RunEnv) : CheckCfg :=
  { linesep := t.linesep
    diff := t.diff
    ignoreEmptyLines := t.ignoreEmptyLines
    evalPy := env.evalPy
    reMatch := env.reMatch }

/-- Command-template resolution at the top of `Test.runCmd`: if the
command contains `$DUT` it is substituted with the configured DUT path,
and a missing DUT aborts the run (the caller transitions to `Error`). -/
def Test.resolveCmd (t : Test) (command : String) : Option String :=
  if strContains command "$DUT" then
    match t.DUT with
    | Option.none => Option.none
    | some d => some (pyReplaceStr command "$DUT" d)
  else some command

/-- The conjunction of the three expectation checks of `Test.runCmd`,
evaluated in source order (return code, then stdout, then stderr). -/
def Test.checksPass (t : Test) (env : RunEnv) (fuel : Nat) (out : PyOut)
    (err : String) (ret : Int) : Bool :=
  (checkF (t.cfg env) fuel t.expectRetCode (PyOut.int ret) "returnCode").1
    && (checkF (t.cfg env) fuel t.expectStdout out "stdout").1
    && (checkF (t.cfg env) fuel t.expectStderr (PyOut.str err) "stderr").1

/-- The failure-classification cascade of `Test.runCmd`: stderr containing
"Assertion"/"assertion" gives `Assertion`; otherwise stderr containing
"stackdump"/"coredump"/"Segmentation Fault" or a negative exit code gives
`SegFault`; otherwise `Fail`. -/
def classifyFailure (err : String) (ret : Int) : TestState :=
  if strContains err "Assertion" || strContains err "assertion" then TestState.Assertion
  else if strContains err "stackdump" || strContains err "coredump"
      || strContains err "Segmentation Fault" || decide (ret < 0) then TestState.SegFault
  else TestState.Fail

/-- `Test.runCmd(command)`: resolve `$DUT` (transitioning to `Error` when
it is required but unconfigured, without executing anything), execute the
command, and either record `Timeout` or store the captured outputs and
derive the state from the three checks. The second component is the list
of shell command lines actually executed (the observable for "runs the
command as a shell process"). Console echoing (`pipe`/`outputOnFail`) is
presentation and not modelled. -/
def Test.runCmd (t : Test) (fuel : Nat) (command : String) (env : RunEnv) :
    Test × List String :=
  match t.resolveCmd command with
  | Option.none => ({ t with state := TestState.Error }, [])
  | some c =>
    match env.exec c with
    | CmdOutcome.timeout => ({ t with state := TestState.Timeout }, [c])
    | CmdOutcome.done out err ret =>
      ({ t with
          output := out
          error := err
          retCode := ret
          state :=
            if t.checksPass env fuel out err ret then TestState.Success
            else classifyFailure err ret }, [c])

/-- The `for cmd_ in self.cmd: self.runCmd(cmd_)` loop of `Test.run`:
each command is run on the test produced by the previous one, so the
final state is the last command's state. -/
def Test.runCmds (t : Test) (fuel : Nat) (cmds : List String) (env : RunEnv) :
    Test × List String :=
  match cmds with
  | [] => (t, [])
  | c :: rest =>
    let r := t.runCmd fuel c env
    let rs := r.1.runCmds fuel rest env
    (rs.1, r.2 ++ rs.2)

/-- The bad-word list `[re.compile(s) for s in self.cmd]`: iterating a
command list yields its entries; iterating a command *string* yields its
characters; iterating `None` raises `TypeError` (modelled as `none`). -/
def badwordWords : PyCmd → Option (List String)
  | PyCmd.none => Option.none
  | PyCmd.str s => some (s.data.map (fun c => String.mk [c]))
  | PyCmd.list l => some l

/-- The hit list of the bad-word scanner: for every globbed file, every
(numbered) line and every word pattern, a hit `(file, lineno, stripped
line, pattern)` whenever `re.search` matches. -/
def badwordHits (env : RunEnv) (ws : List String) :
    List (String × Nat × String × String) :=
  env.globFiles.flatMap fun fl =>
    fl.2.enum.flatMap fun nl =>
      ws.filterMap fun w =>
        if env.reSearch w nl.2 then some (fl.1, nl.1, pyRstrip nl.2, w)
        else Option.none

/-- `Test.run()`: a `Disabled` test is a no-op; an `InfoOnly` test only
prints its name/description (a dropped side effect) and executes nothing;
a test named exactly "Badword" searches the globbed files for the word
patterns in `cmd` and becomes `BadWord` or `Clean` (raising `TypeError`,
modelled as `Option.none`, when `cmd` or `DUT` is `None`); otherwise the
command(s) are run in sequence, and a missing command means `Error`. The
result pairs the mutated test with the list of executed shell commands;
the Python return value always equals the final `state` field. -/
def Test.run (t : Test) (fuel : Nat) (env : RunEnv) : Option (Test × List String) :=
  if t.state = TestState.Disabled then some (t, [])
  else if t.state = TestState.InfoOnly then some (t, [])
  else if t.name = "Badword" then
    match badwordWords t.cmd with
    | Option.none => Option.none
    | some ws =>
      match t.DUT with
      | Option.none => Option.none
      | some _ =>
        some ({ t with
                  state :=
                    if (badwordHits env ws).isEmpty then TestState.Clean
                    else TestState.BadWord }, [])
  else
    match t.cmd with
    | PyCmd.none => some ({ t with state := TestState.Error }, [])
    | PyCmd.str c => some (t.runCmd fuel c env)
    | PyCmd.list cmds => some (t.runCmds fuel cmds env)

/-! ## The process runner (`Command.execute`) -/

/-- The exceptions the termination logic of `Command.execute` can raise:
`subprocess.check_output` raises `CalledProcessError` when `pgrep` exits
non-zero (no child process found), and `int(...)` raises `ValueError`
when its argument is not a single integer literal (for instance the
multi-line output `pgrep` prints when there are several children). -/
inductive PyExc where
  | calledProcessError
  | valueError
deriving DecidableEq, Repr

/-- The kill signals the POSIX branch of the termination logic sends. -/
inductive KillAction where
  | sigkill (pid : Int)
  | sigterm (pid : Int)
deriving DecidableEq, Repr

/-- The environment of one `Command.execute` call, POSIX branch
(`sys.platform != "win32"`): whether the watchdog found the process still
running after `thread.join(timeout)`, what `check_output("pgrep -P pid")`
returns (`ok` with pgrep's stdout, or the `CalledProcessError` it raises
when there are no children), whether `proc.poll()` still reports the
parent alive after the child kill, and the parent's pid. -/
structure KillEnv where
  stillRunning : Bool
  pgrepResult : Except PyExc String
  parentAliveAfterChildKill : Bool
  parentPid : Int

/-- Python `int(s)` on a string: strip whitespace, then accept exactly an
optional minus sign followed by decimal digits. (A leading `+` is also
accepted by CPython but never produced by `pgrep`.) -/
def pyIntParse (s : String) : Except PyExc Int :=
  match (pyStrip s).data with
  | [] => Except.error PyExc.valueError
  | '-' :: ds =>
    if !ds.isEmpty && ds.all Char.isDigit then
      Except.ok (-(Int.ofNat (digitsToNat ds)))
    else Except.error PyExc.valueError
  | ds =>
    if ds.all Char.isDigit then Except.ok (Int.ofNat (digitsToNat ds))
    else Except.error PyExc.valueError

/-- `Command.execute(timeout)` after `thread.join(timeout)`, POSIX branch:
if the process finished in time the result is `Success` and nothing is
killed; otherwise the code parses the entire `pgrep -P` output with
`int(...)` as a single child pid, SIGKILLs that pid, SIGTERMs the parent
if it is still alive, and returns `Timeout`. There is no exception
handling around `check_output` or `int`, so their exceptions propagate
out of `execute`. -/
def Command.execute (env : KillEnv) : Except PyExc (TestState × List KillAction) :=
  if env.stillRunning then
    match env.pgrepResult with
    | Except.error e => Except.error e
    | Except.ok s =>
      match pyIntParse (pyStrip s) with
      | Except.error e => Except.error e
      | Except.ok childPid =>
        Except.ok (TestState.Timeout,
          KillAction.sigkill childPid ::
            (if env.parentAliveAfterChildKill then [KillAction.sigterm env.parentPid]
             else []))
  else Except.ok (TestState.Success, [])

/-! ## Test groups (`class TestGroup`) -/

/-- The polymorphic "runnable test node": a `Test` or a `TestGroup`
(which may itself contain nested groups). A group carries its ordered
children, its aggregation predicate over the list of per-child success
booleans (`all` by default, `any` for `TestAny`), its optional display
name, and its state. -/
inductive TestNode where
  | testCase (t : Test)
  | group (children : List TestNode) (pred : List Bool → Bool)
      (name : Option String) (state : TestState)

/-- The `name` surface of a node: a test's name field, or the group's
display name, defaulting to "Group of N tests". -/
def TestNode.nodeName : TestNode → String
  | .testCase t => t.name
  | .group cs _ Option.none _ => "Group of " ++ toString cs.length ++ " tests"
  | .group _ _ (some n) _ => n

/-- The state surface of a node. -/
def TestNode.state : TestNode → TestState
  | .testCase t => t.state
  | .group _ _ _ s => s

/-- The loop of `TestGroup.run`: run each child in order, appending its
result to `results` and logging `(name, state)` right after it completes
(`log_test`; index and colouring dropped). A child's own log lines come
before its parent's entry for it. The loop never inspects a child's
state, so a failing child never prevents the remaining children from
running; only an exception escaping a child (the `Option.none` case)
aborts. -/
def seqRun (f : TestNode → Option (TestNode × TestState × List (String × TestState))) :
    List TestNode → Option (List TestNode × List TestState × List (String × TestState))
  | [] => some ([], [], [])
  | c :: rest =>
    match f c with
    | Option.none => Option.none
    | some r =>
      match seqRun f rest with
      | Option.none => Option.none
      | some rs =>
        some (r.1 :: rs.1, r.2.1 :: rs.2.1,
          (r.2.2 ++ [(r.1.nodeName, r.2.1)]) ++ rs.2.2)

/-- `run()` on a node, fuelled by the tree depth: a test node runs the
test (its Python return value is the final state field); a group runs
every child in insertion order via `seqRun` and then sets its own state
to `Success` when the predicate holds of the list "this child's result
equals TestState.Success", and to `Fail` otherwise. The result triple is
(node after the run, the run's return value, group-level log entries). -/
def runNodeF (env : RunEnv) : Nat → TestNode →
    Option (TestNode × TestState × List (String × TestState))
  | 0, _ => Option.none
  | fuel + 1, .testCase t =>
    match t.run fuel env with
    | Option.none => Option.none
    | some r => some (.testCase r.1, r.1.state, [])
  | fuel + 1, .group cs pred nm _ =>
    match seqRun (runNodeF env fuel) cs with
    | Option.none => Option.none
    | some r =>
      let st :=
        if pred (r.2.1.map (fun s => decide (s = TestState.Success))) then TestState.Success
        else TestState.Fail
      some (.group r.1 pred nm st, st, r.2.2)

/-! ## Helper lemmas -/

/-- The boolean of the conjunction loop is the conjunction of the
booleans of its elements. -/
lemma pyAllCheck_fst (f : PyExp → Bool × List String) (l : List PyExp) :
    (pyAllCheck f l).1 = l.all (fun e => (f e).1) := by
  induction l with
  | nil => rfl
  | cons e rest ih =>
    simp only [pyAllCheck, List.all_cons]
    by_cases h : (f e).1 <;> simp [h, ih]

/-- The boolean of the disjunction loop is the disjunction of the
booleans of its elements. -/
lemma pyAnyCheck_fst (f : PyExp → Bool × List String) (l : List PyExp) :
    (pyAnyCheck f l).1 = l.any (fun e => (f e).1) := by
  induction l with
  | nil => rfl
  | cons e rest ih =>
    simp only [pyAnyCheck, List.any_cons]
    by_cases h : (f e).1 <;> simp [h, ih]

/-- Replacing a pattern that does not occur leaves the character list
unchanged. -/
lemma pyReplaceAux_noop (pat rep : List Char) :
    ∀ (fuel : Nat) (s : List Char), containsSeq pat s = false →
      pyReplaceAux pat rep fuel s = s := by
  intro fuel
  induction fuel with
  | zero => intro s _; rfl
  | succ n ih =>
    intro s h
    cases s with
    | nil => rfl
    | cons c rest =>
      have h' : pat.isPrefixOf (c :: rest) = false ∧ containsSeq pat rest = false := by
        simpa [containsSeq] using h
      simp [pyReplaceAux, h'.1, ih rest h'.2]

/-- Replacing a pattern that does not occur in the string is the
identity. -/
lemma pyReplaceStr_noop (s pat rep : String) (h : strContains s pat = false) :
    pyReplaceStr s pat rep = s := by
  unfold pyReplaceStr
  by_cases hp : pat.data.isEmpty
  · simp [hp]
  · simp only [hp, if_neg]
    rw [pyReplaceAux_noop pat.data rep.data s.data.length s.data h]
    simp

/-- Comparing a line list against itself succeeds and logs nothing: the
unified diff of two equal sequences is empty. -/
lemma lineComparison_self (cfg : CheckCfg) (l : List String) (stream : String) :
    lineComparison cfg l l stream = (true, []) := by
  unfold lineComparison unified_diff
  by_cases h : cfg.ignoreEmptyLines <;> by_cases hd : cfg.diff <;> simp [h, hd]

/-- A successful sequential run produces exactly one result per child. -/
lemma seqRun_length
    (f : TestNode → Option (TestNode × TestState × List (String × TestState))) :
    ∀ (cs : List TestNode) r, seqRun f cs = some r → r.2.1.length = cs.length := by
  intro cs
  induction cs with
  | nil =>
    intro r h
    simp only [seqRun, Option.some.injEq] at h
    subst h
    rfl
  | cons c rest ih =>
    intro r h
    simp only [seqRun] at h
    cases hc : f c with
    | none => rw [hc] at h; simp at h
    | some rc =>
      rw [hc] at h
      cases hr : seqRun f rest with
      | none => rw [hr] at h; simp at h
      | some rr =>
        rw [hr] at h
        simp only [Option.some.injEq] at h
        subst h
        simpa using ih rr hr

/-- `Test.runCmd` always leaves the test in one of the six command-mode
outcome states. -/
lemma runCmd_state_mem (t : Test) (fuel : Nat) (c : String) (env : RunEnv) :
    ((t.runCmd fuel c env).1).state ∈ postRunStates := by
  unfold Test.runCmd
  cases hr : t.resolveCmd c with
  | none => simp [postRunStates]
  | some c' =>
    cases he : env.exec c' with
    | timeout => simp [he, postRunStates]
    | done out err ret =>
      simp only [he]
      by_cases hp : t.checksPass env fuel out err ret
      · simp [hp, postRunStates]
      · simp only [if_neg hp]
        unfold classifyFailure
        split_ifs <;> simp [postRunStates]

/-- Running a non-empty command list leaves the test in one of the six
command-mode outcome states (the state of the last command). -/
lemma runCmds_state_mem (fuel : Nat) (env : RunEnv) :
    ∀ (cmds : List String) (t : Test), cmds ≠ [] →
      ((t.runCmds fuel cmds env).1).state ∈ postRunStates := by
  intro cmds
  induction cmds with
  | nil => intro t h; exact absurd rfl h
  | cons c rest ih =>
    intro t _
    cases rest with
    | nil => exact runCmd_state_mem t fuel c env
    | cons c2 r2 => exact ih ((t.runCmd fuel c env).1) (by simp)

/-- Case analysis on `Test.run` for a test that is neither `Disabled` nor
`InfoOnly`: it ends in a command-mode outcome state, in a bad-word state,
or (exactly when the command list is empty) with its state unchanged. -/
lemma run_state_cases (t : Test) (fuel : Nat) (env : RunEnv) (t' : Test)
    (tr : List String)
    (h1 : t.state ≠ TestState.Disabled) (h2 : t.state ≠ TestState.InfoOnly)
    (h : t.run fuel env = some (t', tr)) :
    t'.state ∈ postRunStates ∨ t'.state = TestState.Clean
      ∨ t'.state = TestState.BadWord
      ∨ (t'.state = t.state ∧ t.cmd = PyCmd.list []) := by
  unfold Test.run at h
  rw [if_neg h1, if_neg h2] at h
  by_cases hb : t.name = "Badword"
  · rw [if_pos hb] at h
    cases hw : badwordWords t.cmd with
    | none => rw [hw] at h; simp at h
    | some ws =>
      rw [hw] at h
      cases hd : t.DUT with
      | none => rw [hd] at h; simp at h
      | some d =>
        rw [hd] at h
        simp only [Option.some.injEq, Prod.mk.injEq] at h
        by_cases he : (badwordHits env ws).isEmpty
        · right; left
          rw [← h.1]
          simp [he]
        · right; right; left
          rw [← h.1]
          simp [he]
  · rw [if_neg hb] at h
    cases hc : t.cmd with
    | none =>
      rw [hc] at h
      simp only [Option.some.injEq, Prod.mk.injEq] at h
      left
      rw [← h.1]
      simp [postRunStates]
    | str c =>
      rw [hc] at h
      simp only [Option.some.injEq] at h
      left
      have ht : (t.runCmd fuel c env).1 = t' := by rw [h]
      rw [← ht]
      exact runCmd_state_mem t fuel c env
    | list cmds =>
      rw [hc] at h
      cases cmds with
      | nil =>
        simp only [Test.runCmds, Option.some.injEq, Prod.mk.injEq] at h
        right; right; right
        exact ⟨by rw [← h.1], rfl⟩
      | cons c rest =>
        simp only [Option.some.injEq] at h
        left
        have ht : (t.runCmds fuel (c :: rest) env).1 = t' := by rw [h]
        rw [← ht]
        exact runCmds_state_mem fuel env (c :: rest) t (by simp)

/-! ## Concrete fixtures used by witnesses and counterexamples -/

/-- A check configuration for concrete examples: `\n` line separator,
diff printing enabled, defaults otherwise; the dynamic-evaluation and
regex oracles are never reached by the examples. -/
def cfgD : CheckCfg :=
  { linesep := "\n", diff := true, ignoreEmptyLines := false,
    evalPy := fun _ _ => false, reMatch := fun _ _ => false }

/-- A run environment whose shell reports success with empty output for
every command, with trivial oracles and no globbed files. -/
def envTriv : RunEnv :=
  { exec := fun _ => CmdOutcome.done (PyOut.str "") "" 0,
    evalPy := fun _ _ => false, reMatch := fun _ _ => false,
    reSearch := fun _ _ => false, globFiles := [] }

/-! ## Claim C2 -/

/-- C2: for a Case whose command completes within the timeout and whose
expectation checks do not all pass, `runCmd` classifies the failure in
the fixed priority of the source: stderr containing "Assertion" or
"assertion" gives `Assertion`; otherwise stderr containing "stackdump",
"coredump" or "Segmentation Fault", or a negative exit code, gives
`SegFault`; otherwise plain `Fail`. -/
theorem runCmd_failure_classification (t : Test) (fuel : Nat) (command : String)
    (env : RunEnv) (c : String) (out : PyOut) (err : String) (ret : Int)
    (h1 : t.resolveCmd command = some c)
    (h2 : env.exec c = CmdOutcome.done out err ret)
    (h3 : t.checksPass env fuel out err ret = false) :
    ((t.runCmd fuel command env).1).state =
      (if strContains err "Assertion" || strContains err "assertion" then
        TestState.Assertion
      else if strContains err "stackdump" || strContains err "coredump"
          || strContains err "Segmentation Fault" || decide (ret < 0) then
        TestState.SegFault
      else TestState.Fail) := by
  unfold Test.runCmd
  simp [h1, h2, h3, classifyFailure]

/-- Fixture for the C2 witness: a Case expecting "expected" on stdout. -/
def tC2 : Test :=
  { name := "t", descr := some "", cmd := PyCmd.str "c",
    expectStdout := PyExp.str "expected", expectStderr := PyExp.none,
    expectRetCode := PyExp.none, DUT := Option.none, output := PyOut.str "",
    error := "", retCode := 0, state := TestState.Waiting, pipe := false,
    outputOnFail := false, diff := false, linesep := "\n",
    ignoreEmptyLines := false, pipeLimit := 2000, binary := false }

/-- Fixture for the C2 witness: the command prints "other" on stdout and
"Assertion failed" on stderr, exiting with code 0. -/
def envC2 : RunEnv :=
  { exec := fun _ => CmdOutcome.done (PyOut.str "other") "Assertion failed" 0,
    evalPy := fun _ _ => false, reMatch := fun _ _ => false,
    reSearch := fun _ _ => false, globFiles := [] }

/-- Witness for C2 at the classification boundary of the specification:
stderr "Assertion failed" with a mismatching stdout expectation yields
`Assertion`, not `Fail`. -/
theorem runCmd_failure_classification_witness :
    ((tC2.runCmd 1 "c" envC2).1).state = TestState.Assertion
      ∧ TestState.Assertion ≠ TestState.Fail := by
  refine ⟨?_, by decide⟩
  have h := runCmd_failure_classification tC2 1 "c" envC2 "c" (PyOut.str "other")
    "Assertion failed" 0 rfl rfl (by decide)
  rw [h]
  decide

/-! ## Claim C3 -/

/-- C3: `check` dispatches a Stringifier expectation to the line-by-line
comparison and returns the comparison outcome, even though a Stringifier
is itself callable: the `isinstance(exp, Stringifier)` test precedes the
`callable(exp)` test. The last conjunct exhibits a Stringifier and an
output on which the comparison outcome (false) differs from what invoking
the Stringifier as a predicate would yield (a truthy pair), so the
precedence is observable. -/
theorem stringifier_dispatch (cfg : CheckCfg) (fuel : Nat) (e : String)
    (out : PyOut) (stream : String) :
    checkF cfg (fuel + 1) (PyExp.stringifier e) out stream
      = lineComparison cfg (Stringifier.call e out).1 (Stringifier.call e out).2 stream
    ∧ PyExp.isCallable (PyExp.stringifier e) = true
    ∧ ((checkF cfg (fuel + 1) (PyExp.stringifier "a") (PyOut.str "b") stream).1 = false
        ∧ PyExp.callAsBool (PyExp.stringifier "a") (PyOut.str "b") = true) := by
  refine ⟨rfl, rfl, ?_, rfl⟩
  show (lineComparison cfg ["a"] ["b"] stream).1 = false
  unfold lineComparison unified_diff
  by_cases h : cfg.ignoreEmptyLines <;>
    simp [h, pyStartswith, List.isPrefixOf]

/-! ## Claim C4 -/

/-- C4 (counterexample): with the diff flag enabled, checking the List
expectation ["a", "b"] against an output matching neither logs only the
first element's diff — the second element is never evaluated although its
own diff would be non-empty, so not every failing element's line-diff is
printed. -/
theorem checkList_skips_second_diff :
    (checkF cfgD 2 (PyExp.list [PyExp.str "a", PyExp.str "b"]) (PyOut.str "zzz") "stdout").2
      = (checkF cfgD 1 (PyExp.str "a") (PyOut.str "zzz") "returnCode").2
    ∧ (checkF cfgD 1 (PyExp.str "b") (PyOut.str "zzz") "returnCode").2 ≠ [] := by
  exact ⟨by decide, by decide⟩

/-- C4 (amended): `checkList` short-circuits regardless of the diff flag:
as soon as one element fails, it returns `False` with only the log lines
produced so far, and the remaining elements are not evaluated. -/
theorem checkList_shortcircuits (cfg : CheckCfg) (fuel : Nat) (e : PyExp)
    (rest : List PyExp) (out : PyOut) (stream : String)
    (h : (checkF cfg fuel e out "returnCode").1 = false) :
    checkF cfg (fuel + 1) (PyExp.list (e :: rest)) out stream
      = (false, (checkF cfg fuel e out "returnCode").2) := by
  show pyAllCheck _ (e :: rest) = _
  simp [pyAllCheck, h]

/-- Witness for the amended C4. -/
theorem checkList_shortcircuits_witness :
    checkF cfgD 2 (PyExp.list [PyExp.str "a", PyExp.str "b"]) (PyOut.str "zzz") "stdout"
      = (false, (checkF cfgD 1 (PyExp.str "a") (PyOut.str "zzz") "returnCode").2) :=
  checkList_shortcircuits cfgD 1 (PyExp.str "a") [PyExp.str "b"] (PyOut.str "zzz")
    "stdout" (by decide)

/-! ## Claim C5 -/

/-- C5: for non-empty lists, `checkList` succeeds iff every element's
check succeeds (conjunction law); for non-empty sets, `checkSet` succeeds
iff at least one element's check succeeds (disjunction law). -/
theorem checkList_checkSet_laws (cfg : CheckCfg) (fuel : Nat) (l s : List PyExp)
    (out : PyOut) (hl : l ≠ []) (hs : s ≠ []) :
    ((checkListF cfg fuel l out).1 = true ↔
      ∀ e ∈ l, (checkF cfg fuel e out "returnCode").1 = true)
    ∧ ((checkSetF cfg fuel s out).1 = true ↔
      ∃ e ∈ s, (checkF cfg fuel e out "returnCode").1 = true) := by
  constructor
  · rw [checkListF, pyAllCheck_fst]
    simp
  · rw [checkSetF, pyAnyCheck_fst]
    simp

/-- Witness for C5 on concrete non-empty collections. -/
theorem checkList_checkSet_laws_witness :
    (((checkListF cfgD 1 [PyExp.none] (PyOut.str "x")).1 = true ↔
      ∀ e ∈ ([PyExp.none] : List PyExp),
        (checkF cfgD 1 e (PyOut.str "x") "returnCode").1 = true)
    ∧ ((checkSetF cfgD 1 [PyExp.none] (PyOut.str "x")).1 = true ↔
      ∃ e ∈ ([PyExp.none] : List PyExp),
        (checkF cfgD 1 e (PyOut.str "x") "returnCode").1 = true)) :=
  checkList_checkSet_laws cfgD 1 [PyExp.none] [PyExp.none] (PyOut.str "x")
    (List.cons_ne_nil _ _) (List.cons_ne_nil _ _)

/-! ## Claim C7 -/

/-- C7 (counterexample): the string expectation "a " — no `regex:`
prefix, no `$n` placeholder — compared against the identical output "a "
does NOT match: the expectation keeps its trailing space while the output
is right-stripped before the line comparison. -/
theorem string_roundtrip_fails_on_trailing_space :
    pyStartswith "a " "regex:" = false
    ∧ strContains "a " "$n" = false
    ∧ (checkF cfgD 1 (PyExp.str "a ") (PyOut.str "a ") "stdout").1 = false := by
  exact ⟨by decide, by decide, by decide⟩

/-- C7 (amended): a string expectation with no `regex:` prefix, no
`lambda` prefix (which would be dynamically evaluated), no `$n`
placeholder and no trailing whitespace, compared against an identical
output string, always matches. -/
theorem string_roundtrip_reflexivity (cfg : CheckCfg) (fuel : Nat) (s stream : String)
    (h1 : pyStartswith s "lambda" = false)
    (h2 : pyStartswith s "regex:" = false)
    (h3 : strContains s "$n" = false)
    (h4 : pyRstrip s = s) :
    (checkF cfg (fuel + 1) (PyExp.str s) (PyOut.str s) stream).1 = true := by
  show ((if pyStartswith s "lambda" then (cfg.evalPy s (PyOut.str s), [])
      else if pyStartswith s "regex:" then
        (cfg.reMatch (pyReplaceStr (String.mk (s.data.drop 6)) "$n" cfg.linesep)
          (pyStr (PyOut.str s)), [])
      else
        lineComparison cfg
          (pySplitlines (pyReplaceStr s "$n" cfg.linesep))
          (pySplitlines (pyRstrip (pyStr (PyOut.str s))))
          stream) : Bool × List String).1 = true
  rw [if_neg (by simp [h1]), if_neg (by simp [h2])]
  show (lineComparison cfg (pySplitlines (pyReplaceStr s "$n" cfg.linesep))
    (pySplitlines (pyRstrip s)) stream).1 = true
  rw [pyReplaceStr_noop s "$n" cfg.linesep h3, h4, lineComparison_self]

/-- Witness for the amended C7. -/
theorem string_roundtrip_reflexivity_witness :
    (checkF cfgD 1 (PyExp.str "hello") (PyOut.str "hello") "stdout").1 = true :=
  string_roundtrip_reflexivity cfgD 0 "hello" "stdout"
    (by decide) (by decide) (by decide) (by decide)

/-! ## Claim C1 -/

/-- C1: `TestGroup.run` runs every contained node via `seqRun` in
insertion order, logging each child's state right after it completes, and
then sets the group's state to `Success` when the configured predicate
holds of the list "this child's result equals `TestState.Success`", and
to `Fail` otherwise. The second conjunct states that every child
contributed exactly one result; the third states that prepending any
child whose run returns (regardless of the state it returns — in
particular `Fail`) never prevents the remaining children from running,
and that its state is logged after its own log lines. -/
theorem group_run_aggregates (fuel : Nat) (cs : List TestNode)
    (pred : List Bool → Bool) (nm : Option String) (st : TestState) (env : RunEnv)
    (cs' : List TestNode) (states : List TestState)
    (logs : List (String × TestState))
    (h : seqRun (runNodeF env fuel) cs = some (cs', states, logs)) :
    runNodeF env (fuel + 1) (TestNode.group cs pred nm st)
      = some (TestNode.group cs' pred nm
            (if pred (states.map (fun s => decide (s = TestState.Success)))
             then TestState.Success else TestState.Fail),
          (if pred (states.map (fun s => decide (s = TestState.Success)))
           then TestState.Success else TestState.Fail),
          logs)
    ∧ states.length = cs.length
    ∧ ∀ (c c₂ : TestNode) (s : TestState) (lg : List (String × TestState)),
        runNodeF env fuel c = some (c₂, s, lg) →
        seqRun (runNodeF env fuel) (c :: cs)
          = some (c₂ :: cs', s :: states, (lg ++ [(c₂.nodeName, s)]) ++ logs) := by
  refine ⟨?_, seqRun_length _ cs _ h, ?_⟩
  · simp only [runNodeF, h]
  · intro c c₂ s lg hc
    simp only [seqRun, hc, h]

/-- Fixture: a Case that will succeed (command "ok", no expectations). -/
def tS : Test :=
  { name := "ok-test", descr := some "", cmd := PyCmd.str "ok",
    expectStdout := PyExp.none, expectStderr := PyExp.none,
    expectRetCode := PyExp.none, DUT := Option.none, output := PyOut.str "",
    error := "", retCode := 0, state := TestState.Waiting, pipe := false,
    outputOnFail := false, diff := false, linesep := "\n",
    ignoreEmptyLines := false, pipeLimit := 2000, binary := false }

/-- Fixture: a Case that will fail (command "bad" exits 1, expected 0). -/
def tF : Test :=
  { name := "fail-test", descr := some "", cmd := PyCmd.str "bad",
    expectStdout := PyExp.none, expectStderr := PyExp.none,
    expectRetCode := PyExp.int 0, DUT := Option.none, output := PyOut.str "",
    error := "", retCode := 0, state := TestState.Waiting, pipe := false,
    outputOnFail := false, diff := false, linesep := "\n",
    ignoreEmptyLines := false, pipeLimit := 2000, binary := false }

/-- Fixture: the command "ok" exits 0, every other command exits 1. -/
def envW : RunEnv :=
  { exec := fun c =>
      if c = "ok" then CmdOutcome.done (PyOut.str "") "" 0
      else CmdOutcome.done (PyOut.str "") "" 1,
    evalPy := fun _ _ => false, reMatch := fun _ _ => false,
    reSearch := fun _ _ => false, globFiles := [] }

/-- The `any` aggregation predicate of `TestAny`. -/
def anyPred : List Bool → Bool := fun l => l.any id

/-- Witness for C1: the specification's scenario — a group of one
succeeding and one failing Case under the "any" predicate ends in state
`Success`. -/
theorem group_run_aggregates_witness :
    (runNodeF envW 3 (TestNode.group [TestNode.testCase tS, TestNode.testCase tF]
        anyPred Option.none TestState.Waiting)).map (fun r => r.2.1)
      = some TestState.Success := by
  have h := group_run_aggregates 2 [TestNode.testCase tS, TestNode.testCase tF]
    anyPred Option.none TestState.Waiting envW _ _ _ rfl
  rw [h.1]
  rfl

/-! ## Claim C6 -/

/-- Fixture: a bad-word test (name "Badword", word list in `cmd`, glob
pattern in `descr`, a DUT whose directory is scanned). -/
def tBadwordW : Test :=
  { name := "Badword", descr := some "*.c", cmd := PyCmd.list ["fixme"],
    expectStdout := PyExp.none, expectStderr := PyExp.none,
    expectRetCode := PyExp.none, DUT := some "bin/dut", output := PyOut.str "",
    error := "", retCode := 0, state := TestState.Waiting, pipe := false,
    outputOnFail := false, diff := false, linesep := "\n",
    ignoreEmptyLines := false, pipeLimit := 2000, binary := false }

/-- Fixture: an environment whose bad-word scanner finds one matching
line in one globbed file. -/
def envBad : RunEnv :=
  { exec := fun _ => CmdOutcome.done (PyOut.str "") "" 0,
    evalPy := fun _ _ => false, reMatch := fun _ _ => false,
    reSearch := fun _ _ => true, globFiles := [("dut/main.c", ["TODO fixme"])] }

/-- C6 (counterexample): the TestState enumeration is not exhausted by
the nine states of the specification — a run can end in `BadWord`, and
neither `BadWord` nor `Clean` is among the nine. -/
theorem testState_has_extra_states :
    (tBadwordW.run 1 envBad).map (fun r => r.1.state) = some TestState.BadWord
    ∧ TestState.BadWord ∉ specStates ∧ TestState.Clean ∉ specStates := by
  refine ⟨rfl, by decide, by decide⟩

/-- C6 (amended): the enumeration consists of the specification's nine
states plus `Clean` and `BadWord`, and a run of a `Waiting` Case ends in
one of the six command-mode outcomes, in a bad-word outcome, or — exactly
when the configured command list is empty — still `Waiting`. `Disabled`
and `InfoOnly` are never post-run outcomes of a `Waiting` Case. -/
theorem testState_closure_amended :
    (∀ s : TestState, s ∈ allStates)
    ∧ ∀ (t : Test) (fuel : Nat) (env : RunEnv) (t' : Test) (tr : List String),
        t.state = TestState.Waiting → t.run fuel env = some (t', tr) →
        (t'.state ∈ TestState.Waiting :: postRunStates
            ++ [TestState.Clean, TestState.BadWord]
          ∧ (t'.state = TestState.Waiting → t.cmd = PyCmd.list [])) := by
  constructor
  · intro s
    cases s <;> decide
  · intro t fuel env t' tr hW h
    have hcases := run_state_cases t fuel env t' tr (by rw [hW]; decide)
      (by rw [hW]; decide) h
    rcases hcases with hm | hC | hB | ⟨hs, hc⟩
    · constructor
      · exact List.mem_cons_of_mem _ (List.mem_append_left _ hm)
      · intro hw
        rw [hw] at hm
        exact absurd hm (by decide)
    · exact ⟨by rw [hC]; decide, fun hw => absurd (hC ▸ hw) (by decide)⟩
    · exact ⟨by rw [hB]; decide, fun hw => absurd (hB ▸ hw) (by decide)⟩
    · exact ⟨by rw [hs, hW]; decide, fun _ => hc⟩

/-- Fixture: a plain `Waiting` Case with a single command. -/
def tW6 : Test :=
  { name := "t6", descr := some "", cmd := PyCmd.str "c",
    expectStdout := PyExp.none, expectStderr := PyExp.none,
    expectRetCode := PyExp.none, DUT := Option.none, output := PyOut.str "",
    error := "", retCode := 0, state := TestState.Waiting, pipe := false,
    outputOnFail := false, diff := false, linesep := "\n",
    ignoreEmptyLines := false, pipeLimit := 2000, binary := false }

/-- Witness for the amended C6. -/
theorem testState_closure_amended_witness :
    ({ tW6 with state := TestState.Success } : Test).state
      ∈ TestState.Waiting :: postRunStates ++ [TestState.Clean, TestState.BadWord] :=
  (testState_closure_amended.2 tW6 1 envTriv
    { tW6 with state := TestState.Success } ["c"] rfl rfl).1

/-! ## Claim C8 -/

/-- C8 (counterexample): the timeout-termination logic does not treat the
"process already exited between checks" race as already terminated, and
does not kill every child: when `pgrep` finds no children,
`subprocess.check_output` raises `CalledProcessError` and the exception
propagates out of `execute`; when it reports two children, `int(...)`
raises `ValueError` instead of killing each of them. -/
theorem execute_raises_on_kill_races :
    Command.execute
        { stillRunning := true,
          pgrepResult := Except.error PyExc.calledProcessError,
          parentAliveAfterChildKill := true, parentPid := 7 }
      = Except.error PyExc.calledProcessError
    ∧ Command.execute
        { stillRunning := true, pgrepResult := Except.ok "101\n102\n",
          parentAliveAfterChildKill := true, parentPid := 7 }
      = Except.error PyExc.valueError := by
  exact ⟨rfl, rfl⟩

/-- C8 (amended): if the process exits before the timeout, `execute`
returns `Success` and kills nothing. If the timeout elapses, the code
parses the entire `pgrep -P` output as a single integer pid, SIGKILLs
that one child, then SIGTERMs the parent if it is still alive, and
returns `Timeout`; but when `pgrep` raises (no child — for example
because the process exited between checks) or its output is not a single
integer (several children), that exception propagates instead of being
treated as "already terminated". -/
theorem execute_amended (env : KillEnv) :
    (env.stillRunning = false →
      Command.execute env = Except.ok (TestState.Success, []))
    ∧ (∀ e, env.stillRunning = true → env.pgrepResult = Except.error e →
        Command.execute env = Except.error e)
    ∧ (∀ s pid, env.stillRunning = true → env.pgrepResult = Except.ok s →
        pyIntParse (pyStrip s) = Except.ok pid →
        Command.execute env = Except.ok (TestState.Timeout,
          KillAction.sigkill pid ::
            (if env.parentAliveAfterChildKill then [KillAction.sigterm env.parentPid]
             else [])))
    ∧ (∀ s e, env.stillRunning = true → env.pgrepResult = Except.ok s →
        pyIntParse (pyStrip s) = Except.error e →
        Command.execute env = Except.error e) := by
  refine ⟨?_, ?_, ?_, ?_⟩
  · intro h
    simp [Command.execute, h]
  · intro e h hp
    simp [Command.execute, h, hp]
  · intro s pid h hp hi
    simp [Command.execute, h, hp, hi]
  · intro s e h hp hi
    simp [Command.execute, h, hp, hi]

/-- Witness for the amended C8: one child with pid 41, parent pid 7 still
alive after the child kill. -/
theorem execute_amended_witness :
    Command.execute
        { stillRunning := true, pgrepResult := Except.ok "41\n",
          parentAliveAfterChildKill := true, parentPid := 7 }
      = Except.ok (TestState.Timeout,
          [KillAction.sigkill 41, KillAction.sigterm 7]) := by
  have h := (execute_amended
    { stillRunning := true, pgrepResult := Except.ok "41\n",
      parentAliveAfterChildKill := true, parentPid := 7 }).2.2.1 "41\n" 41 rfl rfl rfl
  exact h

/-! ## Claim C9 -/

/-- C9: the constructor stores `TestState.Waiting` regardless of the
`state` argument, and a freshly constructed Test can never take the
`Disabled` or `InfoOnly` early-return path of `run` — whatever state
argument was passed, a completed run never ends in `Disabled` or
`InfoOnly`. -/
theorem init_ignores_state (DUT : Option String) (name description : String)
    (command : PyCmd) (stdout stderr returnCode : PyExp)
    (outputOnFail pipe diff : Bool) (st : TestState) (binary : Bool)
    (osLinesep : String) :
    (Test.init DUT name description command stdout stderr returnCode
        outputOnFail pipe diff st binary osLinesep).state = TestState.Waiting
    ∧ ∀ (fuel : Nat) (env : RunEnv) (t' : Test) (tr : List String),
        (Test.init DUT name description command stdout stderr returnCode
            outputOnFail pipe diff st binary osLinesep).run fuel env = some (t', tr) →
        t'.state ≠ TestState.Disabled ∧ t'.state ≠ TestState.InfoOnly := by
  refine ⟨rfl, ?_⟩
  intro fuel env t' tr h
  have hcases := run_state_cases (Test.init DUT name description command stdout stderr
      returnCode outputOnFail pipe diff st binary osLinesep) fuel env t' tr
    (fun hx => TestState.noConfusion hx) (fun hx => TestState.noConfusion hx) h
  rcases hcases with hm | hC | hB | ⟨hs, _⟩
  · constructor
    · intro he; rw [he] at hm; exact absurd hm (by decide)
    · intro he; rw [he] at hm; exact absurd hm (by decide)
  · exact ⟨by rw [hC]; decide, by rw [hC]; decide⟩
  · exact ⟨by rw [hB]; decide, by rw [hB]; decide⟩
  · refine ⟨?_, ?_⟩ <;> (rw [hs]; exact fun hx => TestState.noConfusion hx)

/-- Witness for C9: a Test constructed with `state=Disabled` still runs
(here ending in `Error` since no command is configured) instead of taking
the Disabled early return. -/
theorem init_ignores_state_witness :
    TestState.Error ≠ TestState.Disabled ∧ TestState.Error ≠ TestState.InfoOnly := by
  have h := init_ignores_state Option.none "n" "" PyCmd.none PyExp.none PyExp.none
    PyExp.none false false false TestState.Disabled false "\n"
  exact h.2 1 envTriv
    { Test.init Option.none "n" "" PyCmd.none PyExp.none PyExp.none PyExp.none
        false false false TestState.Disabled false "\n" with
      state := TestState.Error } [] rfl

/-! ## Claim C10 -/

/-- C10: a Test named exactly "Badword" (and neither Disabled nor
InfoOnly) never executes its command as a shell process — the executed
command trace is empty; instead it scans the globbed files for the
regular expressions listed in `cmd` and ends in `BadWord` when any match
is found and in `Clean` otherwise, both states outside the
specification's nine-state set. -/
theorem badword_mode (t : Test) (fuel : Nat) (env : RunEnv) (ws : List String)
    (d : String)
    (h1 : t.name = "Badword") (h2 : t.state ≠ TestState.Disabled)
    (h3 : t.state ≠ TestState.InfoOnly) (h4 : t.cmd = PyCmd.list ws)
    (h5 : t.DUT = some d) :
    t.run fuel env
      = some ({ t with state := if (badwordHits env ws).isEmpty then TestState.Clean
                                else TestState.BadWord }, [])
    ∧ (if (badwordHits env ws).isEmpty then TestState.Clean else TestState.BadWord)
        ∉ specStates := by
  constructor
  · unfold Test.run
    rw [if_neg h2, if_neg h3, if_pos h1, h4, h5]
    simp [badwordWords]
  · by_cases he : (badwordHits env ws).isEmpty
    · rw [if_pos he]; decide
    · rw [if_neg he]; decide

/-- Witness for C10: a bad-word test over an environment with no globbed
files comes out `Clean` without executing any shell command. -/
theorem badword_mode_witness :
    tBadwordW.run 1 envTriv = some ({ tBadwordW with state := TestState.Clean }, [])
    ∧ TestState.Clean ∉ specStates := by
  have h := badword_mode tBadwordW 1 envTriv ["fixme"] "bin/dut" rfl (by decide)
    (by decide) rfl rfl
  exact ⟨h.1, by decide⟩

end Nightmare
